import Mathlib

/-!
Verification development for the Vayu storefront web application.

This file gives a shallow embedding, in Lean 4, of the delivery-tracking
logic of the repository:

* `getCurvedLinePoints` — the quadratic-Bezier path planner of
  `src/components/delivery-animation.tsx` (lines 30–65), embedded over `ℚ`
  (exact rational arithmetic stands in for IEEE doubles; every rational is
  finite, so the `isFinite` filter of the source keeps every sample).
* a second embedding of the same function over `JsNum`, a number type with
  explicit `NaN`/`±Infinity` values, used to reason about the
  finiteness-filtering behaviour of the source.
* the timer-driven animation machine of `delivery-animation.tsx`
  (the `setInterval` callback, lines 266–326).
* `distanceMeters` and the telemetry-driven machine of the unnamed
  `DeliveryAnimation` variant (`src/unnamed/part_000`).
* the RTL-completion listener and `handleCheckout` of
  `src/components/shopping-cart.tsx`.

All definitions are translated from the TypeScript source; definitions whose
name ends in `Spec` or `Amended` instead transcribe the words of the
natural-language specification, for comparison with the source-derived ones.
-/

namespace Vayu

/-- A latitude/longitude pair in degrees, mirroring `L.LatLng`.
Components are exact rationals: the embedding of IEEE doubles in which
every value is finite. -/
@[ext]
structure Coord where
  lat : ℚ
  lng : ℚ
deriving DecidableEq, Repr

/-- The Bezier control point of `getCurvedLinePoints`
(`delivery-animation.tsx` lines 32–37):
offset from the segment midpoint by 0.12 of the coordinate deltas. -/
def controlPoint (s e : Coord) : Coord :=
  let latOffset := (e.lng - s.lng) * (12 / 100)
  let lngOffset := (s.lat - e.lat) * (12 / 100)
  ⟨(s.lat + e.lat) / 2 + latOffset, (s.lng + e.lng) / 2 + lngOffset⟩

/-- One quadratic Bezier sample
`B(t) = (1−t)²·P0 + 2(1−t)t·C + t²·P1`, componentwise
(`delivery-animation.tsx` lines 41–42). -/
def bezierPoint (p0 c p1 : Coord) (t : ℚ) : Coord :=
  ⟨(1 - t) * (1 - t) * p0.lat + 2 * (1 - t) * t * c.lat + t * t * p1.lat,
   (1 - t) * (1 - t) * p0.lng + 2 * (1 - t) * t * c.lng + t * t * p1.lng⟩

/-- The sampling loop `for i = 0..steps` of `getCurvedLinePoints`
(lines 39–48).  Over `ℚ` the `isFinite(lat) && isFinite(lng)` test is
identically true, so the loop pushes every sample. -/
def curveSamples (s e : Coord) (steps : ℕ) : List Coord :=
  (List.range (steps + 1)).map fun (i : ℕ) =>
    bezierPoint s (controlPoint s e) e ((i : ℚ) / (steps : ℚ))

/-- `getCurvedLinePoints` (`delivery-animation.tsx` lines 30–65) over `ℚ`.
After sampling, if the list is nonempty and its last point differs from the
end point in either component, the exact end point is appended; if the list
is empty (impossible over `ℚ`), the source pushes the finite endpoints,
which over `ℚ` is both of them.  Meaningful for `steps ≥ 1` (the source is
called with `steps = 50`; at `steps = 0` the source divides by zero
producing NaN samples, which `ℚ` does not model). -/
def getCurvedLinePoints (s e : Coord) (steps : ℕ) : List Coord :=
  let points := curveSamples s e steps
  if 0 < points.length then
    let lastPoint := points.getLastD ⟨0, 0⟩
    if lastPoint.lat ≠ e.lat ∨ lastPoint.lng ≠ e.lng then
      points ++ [⟨e.lat, e.lng⟩]
    else
      points
  else
    [⟨s.lat, s.lng⟩, ⟨e.lat, e.lng⟩]

-- ## Planner lemmas

theorem bezierPoint_zero (p0 c p1 : Coord) : bezierPoint p0 c p1 0 = p0 := by
  ext <;> simp [bezierPoint]

theorem bezierPoint_one (p0 c p1 : Coord) : bezierPoint p0 c p1 1 = p1 := by
  ext <;> simp [bezierPoint]

theorem curveSamples_length (s e : Coord) (steps : ℕ) :
    (curveSamples s e steps).length = steps + 1 := by
  simp [curveSamples]

theorem curveSamples_head? (s e : Coord) (steps : ℕ) :
    (curveSamples s e steps).head? = some s := by
  unfold curveSamples
  rw [List.range_succ_eq_map, List.map_cons, List.head?_cons]
  simp [bezierPoint_zero]

theorem curveSamples_getLast? (s e : Coord) (steps : ℕ) (h : 1 ≤ steps) :
    (curveSamples s e steps).getLast? = some e := by
  unfold curveSamples
  rw [List.range_succ, List.map_append, List.map_singleton,
    List.getLast?_concat]
  have hs : ((steps : ℚ)) ≠ 0 := Nat.cast_ne_zero.mpr (by omega)
  rw [div_self hs, bezierPoint_one]

theorem getCurvedLinePoints_eq_samples (s e : Coord) (steps : ℕ)
    (h : 1 ≤ steps) :
    getCurvedLinePoints s e steps = curveSamples s e steps := by
  unfold getCurvedLinePoints
  have hlen : 0 < (curveSamples s e steps).length := by
    rw [curveSamples_length]; omega
  have hne : curveSamples s e steps ≠ [] := by
    intro hnil; rw [hnil] at hlen; simp at hlen
  have hlast : (curveSamples s e steps).getLastD ⟨0, 0⟩ = e := by
    rw [List.getLastD_eq_getLast?, curveSamples_getLast? s e steps h]
    rfl
  simp only [hlen, if_true, hlast]
  simp

theorem getCurvedLinePoints_length (s e : Coord) (steps : ℕ) (h : 1 ≤ steps) :
    (getCurvedLinePoints s e steps).length = steps + 1 := by
  rw [getCurvedLinePoints_eq_samples s e steps h, curveSamples_length]

theorem getCurvedLinePoints_head? (s e : Coord) (steps : ℕ) (h : 1 ≤ steps) :
    (getCurvedLinePoints s e steps).head? = some s := by
  rw [getCurvedLinePoints_eq_samples s e steps h, curveSamples_head?]

theorem getCurvedLinePoints_getLast? (s e : Coord) (steps : ℕ) (h : 1 ≤ steps) :
    (getCurvedLinePoints s e steps).getLast? = some e := by
  rw [getCurvedLinePoints_eq_samples s e steps h, curveSamples_getLast? s e steps h]

/-- C1: for origin ≠ destination and steps ≥ 2, `getCurvedLinePoints`
returns a list whose first element is the origin exactly, whose last
element is the destination within `1e-9` degrees in each component, and
whose length lies between 2 and steps + 2. -/
theorem C1_planner_endpoints (s e : Coord) (steps : ℕ)
    (_hne : s ≠ e) (hsteps : 2 ≤ steps) :
    (getCurvedLinePoints s e steps).head? = some s ∧
    (∃ l, (getCurvedLinePoints s e steps).getLast? = some l ∧
      |l.lat - e.lat| ≤ 1 / 1000000000 ∧ |l.lng - e.lng| ≤ 1 / 1000000000) ∧
    2 ≤ (getCurvedLinePoints s e steps).length ∧
    (getCurvedLinePoints s e steps).length ≤ steps + 2 := by
  have h1 : 1 ≤ steps := by omega
  refine ⟨getCurvedLinePoints_head? s e steps h1, ⟨e, ?_, ?_, ?_⟩, ?_, ?_⟩
  · exact getCurvedLinePoints_getLast? s e steps h1
  · simp
  · simp
  · rw [getCurvedLinePoints_length s e steps h1]; omega
  · rw [getCurvedLinePoints_length s e steps h1]; omega

/-- C1 witness: the theorem instantiated at origin (0,0),
destination (1,1), steps = 2. -/
theorem C1_planner_endpoints_witness :
    (⟨0, 0⟩ : Coord) ≠ (⟨1, 1⟩ : Coord) ∧ 2 ≤ 2 ∧
    ((getCurvedLinePoints ⟨0, 0⟩ ⟨1, 1⟩ 2).head? = some ⟨0, 0⟩ ∧
    (∃ l, (getCurvedLinePoints ⟨0, 0⟩ ⟨1, 1⟩ 2).getLast? = some l ∧
      |l.lat - (1 : ℚ)| ≤ 1 / 1000000000 ∧ |l.lng - (1 : ℚ)| ≤ 1 / 1000000000) ∧
    2 ≤ (getCurvedLinePoints ⟨0, 0⟩ ⟨1, 1⟩ 2).length ∧
    (getCurvedLinePoints ⟨0, 0⟩ ⟨1, 1⟩ 2).length ≤ 2 + 2) :=
  ⟨by decide, by decide, C1_planner_endpoints ⟨0, 0⟩ ⟨1, 1⟩ 2 (by decide) (by decide)⟩

-- ## Timer-driven animation machine
-- (`delivery-animation.tsx`, animation effect lines 230–344)

/-- `DELIVERY_TIME_SECONDS` (`delivery-animation.tsx` line 26). -/
def deliveryTimeSeconds : ℚ := 25

/-- Status text of the timer animation, one constructor per distinct
status string set by the animation effect.  `eta n` stands for
`Estimated arrival in n seconds` with `n = Math.ceil(displayTime)`. -/
inductive AnimStatus where
  | departed
  | eta (secs : ℤ)
  | arrivedDone
  | animationError
deriving DecidableEq, Repr

/-- The mutable state touched by the `setInterval` callback:
`currentStep` (closure counter), `dronePosition`, `progress`,
`estimatedTime`, `statusText`, and whether the interval is still live
(`intervalRef`/`isAnimating`). -/
structure TimerState where
  currentStep : ℕ
  dronePosition : Coord
  progress : ℚ
  estimatedTime : ℚ
  statusText : AnimStatus
  running : Bool
deriving DecidableEq, Repr

/-- State at the moment the interval is installed
(lines 239–243: `currentStep = 0`, `setProgress(0)`,
`setEstimatedTime(DELIVERY_TIME_SECONDS)`,
`setDronePosition(deliveryPathPoints[0])`, status `Drone departed!`).
The animation effect only installs the interval when the path has at
least 2 points, so the `headD` default is never used there. -/
def initTimerState (path : List Coord) : TimerState :=
  { currentStep := 0
    dronePosition := path.headD ⟨0, 0⟩
    progress := 0
    estimatedTime := deliveryTimeSeconds
    statusText := .departed
    running := true }

/-- One invocation of the `setInterval` callback
(`delivery-animation.tsx` lines 266–326).  `user` is
`currentUserLocation`, which is a valid coordinate whenever the path
exists (the path is computed from it).  Over `ℚ` every path point passes
the CRITICAL VALIDATION finiteness check, so the error arm of that check
is not taken.  The completion arm clears the interval (`running := false`)
and snaps the drone to the user location; re-invoking `tick` on a
completed state (which cannot happen in the source, the interval being
cleared) repeats the same idempotent completion updates. -/
def tick (path : List Coord) (user : Coord) (st : TimerState) : TimerState :=
  let totalSteps := path.length
  if st.currentStep < totalSteps then
    let nextPos := path.getD st.currentStep ⟨0, 0⟩
    let currentProgress : ℚ := (st.currentStep : ℚ) / ((totalSteps - 1 : ℕ) : ℚ)
    let displayProgress := min (currentProgress * 100) 100
    let displayTime := max 0 (deliveryTimeSeconds * (1 - currentProgress))
    { st with
      dronePosition := nextPos
      progress := displayProgress
      estimatedTime := displayTime
      statusText :=
        if displayProgress < 100 then .eta ⌈displayTime⌉ else st.statusText
      currentStep := st.currentStep + 1 }
  else
    { st with
      running := false
      dronePosition := user
      progress := 100
      estimatedTime := 0
      statusText := .arrivedDone }

/-- The state after `n` invocations of the interval callback. -/
def runTicks (path : List Coord) (user : Coord) : ℕ → TimerState
  | 0 => initTimerState path
  | n + 1 => tick path user (runTicks path user n)

-- ## Timer lemmas

theorem runTicks_currentStep (path : List Coord) (user : Coord) (k : ℕ) :
    (runTicks path user k).currentStep = min k path.length := by
  induction k with
  | zero => simp [runTicks, initTimerState]
  | succ n ih =>
    rw [runTicks]
    unfold tick
    by_cases h : (runTicks path user n).currentStep < path.length
    · rw [if_pos h]
      simp only [ih] at h ⊢
      omega
    · rw [if_neg h]
      simp only [ih] at h ⊢
      omega

/-- Closed form of the progress value published after `k` ticks on a
path of length `N`. -/
def timerProgressAt (N k : ℕ) : ℚ :=
  if k = 0 then 0
  else if k - 1 < N then min (((k - 1 : ℕ) : ℚ) / ((N - 1 : ℕ) : ℚ) * 100) 100
  else 100

theorem runTicks_progress (path : List Coord) (user : Coord) (k : ℕ) :
    (runTicks path user k).progress = timerProgressAt path.length k := by
  cases k with
  | zero => simp [runTicks, initTimerState, timerProgressAt]
  | succ n =>
    rw [runTicks]
    unfold tick
    by_cases h : (runTicks path user n).currentStep < path.length
    · rw [if_pos h]
      rw [runTicks_currentStep] at h ⊢
      have hn : min n path.length = n := by omega
      rw [hn] at h ⊢
      simp [timerProgressAt, Nat.succ_sub_one, h]
    · rw [if_neg h]
      rw [runTicks_currentStep] at h
      have hn : ¬ n < path.length := by omega
      simp [timerProgressAt, Nat.succ_sub_one, hn]

theorem curveSamples_getD_last (s e : Coord) (steps : ℕ) (h : 1 ≤ steps) :
    (curveSamples s e steps).getD steps ⟨0, 0⟩ = e := by
  have hlt : steps < steps + 1 := by omega
  unfold curveSamples
  rw [List.getD_eq_getElem?_getD, List.getElem?_map, List.getElem?_range hlt]
  have hs : ((steps : ℚ)) ≠ 0 := Nat.cast_ne_zero.mpr (by omega)
  simp [div_self hs, bezierPoint_one]

/-- C2: on a planner path of `N ≥ 2` points, after exactly `N`
invocations of the animation interval, the published progress is 100,
the remaining time is 0, and the drone position equals the destination
coordinate exactly (componentwise equality).  The `N`-th tick runs with
`currentStep = N − 1`, publishes `path[N−1]` — which is exactly the
destination, by `getCurvedLinePoints` — and progress
`min((N−1)/(N−1)·100, 100) = 100`. -/
theorem C2_timer_completion (s user : Coord) (steps : ℕ) (hsteps : 1 ≤ steps) :
    let path := getCurvedLinePoints s user steps
    (runTicks path user path.length).progress = 100 ∧
    (runTicks path user path.length).estimatedTime = 0 ∧
    (runTicks path user path.length).dronePosition = user := by
  intro path
  have hlen : path.length = steps + 1 := getCurvedLinePoints_length s user steps hsteps
  have hpos : 1 ≤ path.length := by omega
  obtain ⟨m, hm⟩ : ∃ m, path.length = m + 1 := ⟨steps, hlen⟩
  have hstep : (runTicks path user m).currentStep = m := by
    rw [runTicks_currentStep]; omega
  have hmlt : m < path.length := by omega
  rw [hm]
  rw [runTicks]
  unfold tick
  rw [if_pos (by rw [hstep]; exact hmlt)]
  rw [hstep]
  have hm1 : path.length - 1 = m := by omega
  have hmq : ((m : ℕ) : ℚ) ≠ 0 ∨ m = 0 := by
    by_cases h0 : m = 0
    · exact Or.inr h0
    · exact Or.inl (Nat.cast_ne_zero.mpr h0)
  have hms : m = steps := by omega
  have hsq : ((m : ℕ) : ℚ) ≠ 0 := Nat.cast_ne_zero.mpr (by omega)
  have hfrac : ((m : ℕ) : ℚ) / ((path.length - 1 : ℕ) : ℚ) = 1 := by
    rw [hm1]; exact div_self hsq
  refine ⟨?_, ?_, ?_⟩
  · simp only [hfrac]; norm_num
  · simp only [hfrac]; norm_num [deliveryTimeSeconds]
  · show path.getD m ⟨0, 0⟩ = user
    rw [hms]
    rw [show path = getCurvedLinePoints s user steps from rfl,
      getCurvedLinePoints_eq_samples s user steps hsteps]
    exact curveSamples_getD_last s user steps hsteps

/-- C2 witness: the theorem instantiated at store (0,0),
user (3,4), steps = 2 (path of 3 points). -/
theorem C2_timer_completion_witness :
    1 ≤ 2 ∧
    ((runTicks (getCurvedLinePoints ⟨0, 0⟩ ⟨3, 4⟩ 2) ⟨3, 4⟩
        (getCurvedLinePoints ⟨0, 0⟩ ⟨3, 4⟩ 2).length).progress = 100 ∧
    (runTicks (getCurvedLinePoints ⟨0, 0⟩ ⟨3, 4⟩ 2) ⟨3, 4⟩
        (getCurvedLinePoints ⟨0, 0⟩ ⟨3, 4⟩ 2).length).estimatedTime = 0 ∧
    (runTicks (getCurvedLinePoints ⟨0, 0⟩ ⟨3, 4⟩ 2) ⟨3, 4⟩
        (getCurvedLinePoints ⟨0, 0⟩ ⟨3, 4⟩ 2).length).dronePosition = ⟨3, 4⟩) :=
  ⟨by decide, C2_timer_completion ⟨0, 0⟩ ⟨3, 4⟩ 2 (by decide)⟩

/-- C8: within one timer session on a fixed path of at least 2 points,
every published progress value lies in [0, 100] and consecutive
published values are non-decreasing, from the initial 0 through the
terminal 100. -/
theorem C8_progress_monotone (path : List Coord) (user : Coord)
    (hlen : 2 ≤ path.length) (k : ℕ) :
    0 ≤ (runTicks path user k).progress ∧
    (runTicks path user k).progress ≤ 100 ∧
    (runTicks path user k).progress ≤ (runTicks path user (k + 1)).progress := by
  have hden : (0 : ℚ) < ((path.length - 1 : ℕ) : ℚ) := by
    have : 1 ≤ path.length - 1 := by omega
    exact_mod_cast Nat.lt_of_lt_of_le Nat.zero_lt_one this
  have hbounds : ∀ j : ℕ, 0 ≤ timerProgressAt path.length j ∧
      timerProgressAt path.length j ≤ 100 := by
    intro j
    unfold timerProgressAt
    by_cases h0 : j = 0
    · simp [h0]
    · rw [if_neg h0]
      by_cases h1 : j - 1 < path.length
      · rw [if_pos h1]
        constructor
        · apply le_min
          · positivity
          · norm_num
        · exact min_le_right _ _
      · rw [if_neg h1]; norm_num
  rw [runTicks_progress, runTicks_progress]
  refine ⟨(hbounds k).1, (hbounds k).2, ?_⟩
  unfold timerProgressAt
  by_cases h0 : k = 0
  · subst h0
    simp only [if_pos rfl]
    have := (hbounds 1).1
    unfold timerProgressAt at this
    simpa using this
  · rw [if_neg h0, if_neg (by omega : ¬ k + 1 = 0)]
    by_cases h1 : k - 1 < path.length
    · rw [if_pos h1]
      by_cases h2 : k + 1 - 1 < path.length
      · rw [if_pos h2]
        apply min_le_min _ le_rfl
        apply mul_le_mul_of_nonneg_right _ (by norm_num : (0 : ℚ) ≤ 100)
        exact (div_le_div_iff_of_pos_right hden).mpr
          (by exact_mod_cast Nat.sub_le_sub_right (Nat.le_succ k) 1)
      · rw [if_neg h2]
        exact min_le_right _ _
    · rw [if_neg h1]
      rw [if_neg (by omega : ¬ k + 1 - 1 < path.length)]

/-- C8 witness: bounds and monotonicity at tick 1 on a concrete
2-point path. -/
theorem C8_progress_monotone_witness :
    2 ≤ ([⟨0, 0⟩, ⟨1, 1⟩] : List Coord).length ∧
    (0 ≤ (runTicks [⟨0, 0⟩, ⟨1, 1⟩] ⟨1, 1⟩ 1).progress ∧
    (runTicks [⟨0, 0⟩, ⟨1, 1⟩] ⟨1, 1⟩ 1).progress ≤ 100 ∧
    (runTicks [⟨0, 0⟩, ⟨1, 1⟩] ⟨1, 1⟩ 1).progress ≤
      (runTicks [⟨0, 0⟩, ⟨1, 1⟩] ⟨1, 1⟩ 2).progress) :=
  ⟨by decide, C8_progress_monotone [⟨0, 0⟩, ⟨1, 1⟩] ⟨1, 1⟩ (by decide) 1⟩

-- ## JavaScript-number model of the planner
-- A second embedding of `getCurvedLinePoints` over a number type with
-- explicit NaN and ±Infinity, to reason about the `isFinite` filtering of
-- the source.  Finite-by-finite operations are modelled as exact (overflow
-- of doubles to infinity is not modelled); NaN and infinities propagate as
-- in JavaScript arithmetic.

/-- A JavaScript number: finite (exact rational), NaN, or ±Infinity. -/
inductive JsNum where
  | fin (q : ℚ)
  | nan
  | posInf
  | negInf
deriving DecidableEq, Repr

/-- `isFinite` of JavaScript. -/
def JsNum.isFinite : JsNum → Bool
  | .fin _ => true
  | _ => false

def JsNum.neg : JsNum → JsNum
  | .fin q => .fin (-q)
  | .nan => .nan
  | .posInf => .negInf
  | .negInf => .posInf

def JsNum.add : JsNum → JsNum → JsNum
  | .fin a, .fin b => .fin (a + b)
  | .nan, _ => .nan
  | _, .nan => .nan
  | .posInf, .negInf => .nan
  | .negInf, .posInf => .nan
  | .posInf, _ => .posInf
  | _, .posInf => .posInf
  | .negInf, _ => .negInf
  | _, .negInf => .negInf

def JsNum.sub (a b : JsNum) : JsNum := a.add b.neg

def JsNum.mul : JsNum → JsNum → JsNum
  | .fin a, .fin b => .fin (a * b)
  | .nan, _ => .nan
  | _, .nan => .nan
  | .posInf, .posInf => .posInf
  | .posInf, .negInf => .negInf
  | .negInf, .posInf => .negInf
  | .negInf, .negInf => .posInf
  | .posInf, .fin b => if b = 0 then .nan else if 0 < b then .posInf else .negInf
  | .fin a, .posInf => if a = 0 then .nan else if 0 < a then .posInf else .negInf
  | .negInf, .fin b => if b = 0 then .nan else if 0 < b then .negInf else .posInf
  | .fin a, .negInf => if a = 0 then .nan else if 0 < a then .negInf else .posInf

/-- Division; `0/0 = NaN`, `a/0 = ±Infinity` (the sign of a double zero
is not modelled: `ℚ` has a single zero, taken as `+0`). -/
def JsNum.div : JsNum → JsNum → JsNum
  | .fin a, .fin b =>
      if b = 0 then (if a = 0 then .nan else if 0 < a then .posInf else .negInf)
      else .fin (a / b)
  | .nan, _ => .nan
  | _, .nan => .nan
  | .posInf, .posInf => .nan
  | .posInf, .negInf => .nan
  | .negInf, .posInf => .nan
  | .negInf, .negInf => .nan
  | .fin _, .posInf => .fin 0
  | .fin _, .negInf => .fin 0
  | .posInf, .fin b => if 0 ≤ b then .posInf else .negInf
  | .negInf, .fin b => if 0 ≤ b then .negInf else .posInf

instance : Add JsNum := ⟨JsNum.add⟩
instance : Sub JsNum := ⟨JsNum.sub⟩
instance : Mul JsNum := ⟨JsNum.mul⟩
instance : Div JsNum := ⟨JsNum.div⟩

/-- A coordinate pair of JavaScript numbers. -/
structure JsCoord where
  lat : JsNum
  lng : JsNum
deriving DecidableEq, Repr

/-- `controlPoint` over JavaScript numbers (lines 32–37). -/
def controlPointF (s e : JsCoord) : JsCoord :=
  let latOffset := (e.lng - s.lng) * .fin (12 / 100)
  let lngOffset := (s.lat - e.lat) * .fin (12 / 100)
  ⟨(s.lat + e.lat) / .fin 2 + latOffset, (s.lng + e.lng) / .fin 2 + lngOffset⟩

/-- One Bezier sample over JavaScript numbers (lines 41–42). -/
def bezierPointF (p0 c p1 : JsCoord) (t : JsNum) : JsCoord :=
  ⟨(.fin 1 - t) * (.fin 1 - t) * p0.lat + .fin 2 * (.fin 1 - t) * t * c.lat
      + t * t * p1.lat,
   (.fin 1 - t) * (.fin 1 - t) * p0.lng + .fin 2 * (.fin 1 - t) * t * c.lng
      + t * t * p1.lng⟩

/-- `getCurvedLinePoints` over JavaScript numbers (lines 30–65), with the
source's `isFinite` guards intact: a sampled point is pushed only when
both components are finite; the end point is appended only when finite;
the empty-fallback pushes the start and end points only when finite. -/
def getCurvedLinePointsF (s e : JsCoord) (steps : ℕ) : List JsCoord :=
  let c := controlPointF s e
  let points := (List.range (steps + 1)).filterMap fun (i : ℕ) =>
    let p := bezierPointF s c e (JsNum.div (.fin i) (.fin steps))
    if p.lat.isFinite && p.lng.isFinite then some p else none
  if 0 < points.length then
    let lastPoint := points.getLastD ⟨.nan, .nan⟩
    if lastPoint.lat ≠ e.lat ∨ lastPoint.lng ≠ e.lng then
      (if e.lat.isFinite && e.lng.isFinite then points ++ [⟨e.lat, e.lng⟩]
       else points)
    else points
  else
    if e.lat.isFinite && e.lng.isFinite then
      (if s.lat.isFinite && s.lng.isFinite then
        [⟨s.lat, s.lng⟩, ⟨e.lat, e.lng⟩]
       else [⟨e.lat, e.lng⟩])
    else []

/-- The CRITICAL VALIDATION test of the interval callback
(`delivery-animation.tsx` line 271): the position is a 2-element numeric
array (structural in this embedding) with both components finite. -/
def validTickPosition (p : JsCoord) : Bool :=
  p.lat.isFinite && p.lng.isFinite

theorem mem_filterMap_finite {l : List ℕ} {f : ℕ → JsCoord} {p : JsCoord}
    (hp : p ∈ l.filterMap fun i =>
      if (f i).lat.isFinite && (f i).lng.isFinite then some (f i) else none) :
    p.lat.isFinite = true ∧ p.lng.isFinite = true := by
  rw [List.mem_filterMap] at hp
  obtain ⟨i, _, hi⟩ := hp
  by_cases h : (f i).lat.isFinite && (f i).lng.isFinite
  · rw [if_pos h] at hi
    cases hi
    exact ⟨(Bool.and_eq_true _ _ ▸ h).1, (Bool.and_eq_true _ _ ▸ h).2⟩
  · rw [if_neg h] at hi
    cases hi

/-- C9: every point returned by `getCurvedLinePoints` for finite start
and end coordinates has finite latitude and longitude — non-finite Bezier
samples are filtered out and endpoints are appended only under an
`isFinite` guard — and hence every point passes the interval callback's
position validation, making its `Animation Error: Invalid path data`
branch unreachable on planner-produced paths. -/
theorem C9_planner_points_finite (s e : JsCoord) (steps : ℕ)
    (hs : s.lat.isFinite = true ∧ s.lng.isFinite = true)
    (he : e.lat.isFinite = true ∧ e.lng.isFinite = true) :
    ∀ p ∈ getCurvedLinePointsF s e steps,
      (p.lat.isFinite = true ∧ p.lng.isFinite = true) ∧
      validTickPosition p = true := by
  intro p hp
  suffices h : p.lat.isFinite = true ∧ p.lng.isFinite = true by
    refine ⟨h, ?_⟩
    unfold validTickPosition
    rw [h.1, h.2]
    rfl
  unfold getCurvedLinePointsF at hp
  set c := controlPointF s e with hc
  simp only at hp
  split at hp
  case isTrue hlen =>
    split at hp
    case isTrue hlast =>
      split at hp
      case isTrue hfin =>
        rw [List.mem_append] at hp
        rcases hp with hp | hp
        · exact mem_filterMap_finite hp
        · rw [List.mem_singleton] at hp
          subst hp
          exact ⟨(Bool.and_eq_true _ _ ▸ hfin).1, (Bool.and_eq_true _ _ ▸ hfin).2⟩
      case isFalse _ =>
        exact mem_filterMap_finite hp
    case isFalse _ =>
      exact mem_filterMap_finite hp
  case isFalse _ =>
    split at hp
    case isTrue hfinE =>
      split at hp
      case isTrue hfinS =>
        rcases List.mem_cons.mp hp with h1 | hp2
        · subst h1; exact hs
        · rcases List.mem_cons.mp hp2 with h2 | h3
          · subst h2; exact he
          · cases h3
      case isFalse _ =>
        rw [List.mem_singleton] at hp
        subst hp
        exact he
    case isFalse _ =>
      cases hp

theorem getCurvedLinePointsF_concrete :
    getCurvedLinePointsF ⟨.fin 0, .fin 0⟩ ⟨.fin 2, .fin 2⟩ 1 =
      [⟨.fin 0, .fin 0⟩, ⟨.fin 2, .fin 2⟩] := by
  norm_num [getCurvedLinePointsF, controlPointF, bezierPointF,
    List.range_succ, List.filterMap, JsNum.isFinite, JsNum.div, JsNum.mul,
    JsNum.add, JsNum.sub, JsNum.neg, HMul.hMul, HAdd.hAdd, HSub.hSub,
    HDiv.hDiv, Mul.mul, Add.add, Sub.sub, Div.div, List.getLastD]

/-- C9 witness: the theorem applied to a concrete finite input and a
concrete member of the resulting path. -/
theorem C9_planner_points_finite_witness :
    ((⟨.fin 0, .fin 0⟩ : JsCoord).lat.isFinite = true ∧
      (⟨.fin 0, .fin 0⟩ : JsCoord).lng.isFinite = true) ∧
    ((⟨.fin 2, .fin 2⟩ : JsCoord).lat.isFinite = true ∧
      (⟨.fin 2, .fin 2⟩ : JsCoord).lng.isFinite = true) ∧
    (((⟨.fin 2, .fin 2⟩ : JsCoord).lat.isFinite = true ∧
      (⟨.fin 2, .fin 2⟩ : JsCoord).lng.isFinite = true) ∧
      validTickPosition ⟨.fin 2, .fin 2⟩ = true) :=
  ⟨⟨rfl, rfl⟩, ⟨rfl, rfl⟩,
    C9_planner_points_finite ⟨.fin 0, .fin 0⟩ ⟨.fin 2, .fin 2⟩ 1
      ⟨rfl, rfl⟩ ⟨rfl, rfl⟩ ⟨.fin 2, .fin 2⟩
      (by rw [getCurvedLinePointsF_concrete]
          exact List.mem_cons_of_mem _ (List.mem_singleton.mpr rfl))⟩

-- ## Distance (`src/unnamed/part_000`, `distanceMeters`, lines 53–57)

/-- The squared distance of `distanceMeters`:
`dlat = (b.lat − a.lat)·111320`, `dlon = (b.lng − a.lng)·100000`,
squared sum `dlat·dlat + dlon·dlon`. -/
def distSqMeters (a b : Coord) : ℚ :=
  let dlat := (b.lat - a.lat) * 111320
  let dlon := (b.lng - a.lng) * 100000
  dlat * dlat + dlon * dlon

/-- `distanceMeters` of `src/unnamed/part_000`:
`Math.sqrt(dlat·dlat + dlon·dlon)`. -/
noncomputable def distanceMeters (a b : Coord) : ℝ :=
  Real.sqrt ((distSqMeters a b : ℚ) : ℝ)

/-- Modelled from the claim's words (for comparison with the source):
`sqrt(((b.lon − a.lon)·111320)² + ((b.lat − a.lat)·110540)²)` —
longitude scaled by 111320 m/deg and latitude by 110540 m/deg. -/
noncomputable def distanceMetersSpec (a b : Coord) : ℝ :=
  Real.sqrt ((((b.lng - a.lng : ℚ) : ℝ) * 111320) ^ 2
    + (((b.lat - a.lat : ℚ) : ℝ) * 110540) ^ 2)

/-- The amended formula, following the source's constants:
`sqrt(((b.lat − a.lat)·111320)² + ((b.lon − a.lon)·100000)²)` —
latitude scaled by 111320 m/deg and longitude by 100000 m/deg. -/
noncomputable def distanceMetersAmended (a b : Coord) : ℝ :=
  Real.sqrt ((((b.lat - a.lat : ℚ) : ℝ) * 111320) ^ 2
    + (((b.lng - a.lng : ℚ) : ℝ) * 100000) ^ 2)

/-- Evaluation helper: when the squared distance is a perfect rational
square, the distance is its root. -/
theorem distanceMeters_eval (a b : Coord) (r : ℚ)
    (h : distSqMeters a b = r * r) (hr : 0 ≤ r) :
    distanceMeters a b = (r : ℝ) := by
  unfold distanceMeters
  rw [h]
  push_cast
  exact Real.sqrt_mul_self (by exact_mod_cast hr)

/-- C3 counterexample: at a = (0,0), b = (0, 0.01) the code's distance is
exactly 1000 m while the claimed formula gives 1113.2 m; the two
disagree, and in particular `distance((0,0),(0,0.01)) ≈ 1113 m` is false
of the code. -/
theorem C3_counterexample :
    distanceMeters ⟨0, 0⟩ ⟨0, 1/100⟩ = 1000 ∧
    distanceMetersSpec ⟨0, 0⟩ ⟨0, 1/100⟩ = 11132 / 10 ∧
    distanceMeters ⟨0, 0⟩ ⟨0, 1/100⟩ ≠ distanceMetersSpec ⟨0, 0⟩ ⟨0, 1/100⟩ := by
  have h1 : distanceMeters ⟨0, 0⟩ ⟨0, 1/100⟩ = ((1000 : ℚ) : ℝ) :=
    distanceMeters_eval _ _ 1000 (by norm_num [distSqMeters]) (by norm_num)
  have h2 : distanceMetersSpec ⟨0, 0⟩ ⟨0, 1/100⟩ = 11132 / 10 := by
    unfold distanceMetersSpec
    have : ((((1/100 : ℚ) - 0 : ℚ) : ℝ) * 111320) ^ 2
        + ((((0 : ℚ) - 0 : ℚ) : ℝ) * 110540) ^ 2 = (11132 / 10 : ℝ) ^ 2 := by
      norm_num
    rw [this, Real.sqrt_sq (by norm_num)]
  refine ⟨by rw [h1]; norm_num, h2, ?_⟩
  rw [h1, h2]
  norm_num

/-- C3 amended: the distance used for PlannedDistance and progress is
`sqrt(((b.lat − a.lat)·111320)² + ((b.lon − a.lon)·100000)²)` (latitude
scaled by 111320 m/deg, longitude by 100000 m/deg); in particular
`distance((0,0),(0,0.01)) = 1000 m` exactly. -/
theorem C3_distance_formula_amended :
    (∀ a b : Coord, distanceMeters a b = distanceMetersAmended a b) ∧
    distanceMeters ⟨0, 0⟩ ⟨0, 1/100⟩ = 1000 := by
  constructor
  · intro a b
    unfold distanceMeters distanceMetersAmended distSqMeters
    congr 1
    push_cast
    ring
  · have h1 : distanceMeters ⟨0, 0⟩ ⟨0, 1/100⟩ = ((1000 : ℚ) : ℝ) :=
      distanceMeters_eval _ _ 1000 (by norm_num [distSqMeters]) (by norm_num)
    rw [h1]; norm_num

-- ## Telemetry-driven machine (`src/unnamed/part_000`, `ws.onmessage`,
-- lines 132–190)

/-- Status text of the telemetry variant, one constructor per distinct
status string set by the component.  `inTransit p` stands for
`In transit (P%)` with `P = p.toFixed(0)`; `telemetryError m` stands for
`Telemetry error: m`. -/
inductive TelemetryStatus where
  | preparing
  | usingTestLocation
  | gettingDroneLocation
  | gettingDronePosition
  | droneLocated
  | arriving
  | inTransit (p : ℝ)
  | telemetryError (msg : String)
  | connectionError

/-- The parsed JSON payload of one telemetry frame: the fields the
handlers read.  A `none` field is absent from the object
(`{"noise": true}` parses to all-`none`); `rtl = some b` models a
`rtl_status` object with `is_rtl_active = b`. -/
structure Telemetry where
  lat : Option ℚ
  lon : Option ℚ
  error : Option String
  rtl : Option Bool
deriving DecidableEq, Repr

/-- One WebSocket text frame: either not valid JSON (`JSON.parse`
throws, the `catch` swallows it) or a parsed payload. -/
inductive Frame where
  | malformed (raw : String)
  | json (data : Telemetry)
deriving DecidableEq, Repr

/-- The state touched by the telemetry `ws.onmessage` handler.
`initialPositionSet` models the effect-local flag of the same name. -/
structure TelemetryState where
  statusText : TelemetryStatus
  droneInitialLocation : Option Coord
  dronePosition : Option Coord
  progress : ℝ
  pathLine : Option (List Coord)
  totalDistance : ℝ
  initialPositionSet : Bool

/-- Component state when the socket is open and awaiting the first
telemetry frame. -/
def initTelemetryState : TelemetryState :=
  { statusText := .gettingDronePosition
    droneInitialLocation := none
    dronePosition := none
    progress := 0
    pathLine := none
    totalDistance := 0
    initialPositionSet := false }

/-- JavaScript truthiness of an optional string (`data?.error`):
truthy iff present and nonempty. -/
def truthyStr : Option String → Bool
  | some s => !(s == "")
  | none => false

/-- The `else if (data?.error)` tail of the handler: a truthy `error`
field updates only the status text; otherwise nothing happens. -/
def errorFallthrough (st : TelemetryState) (d : Telemetry) : TelemetryState :=
  if truthyStr d.error then
    { st with statusText := .telemetryError (d.error.getD "") }
  else st

/-- The telemetry `ws.onmessage` handler (`src/unnamed/part_000`
lines 132–190) as a state transformer.  `user` is
`currentUserLocation` (fixed before the socket opens).  The JavaScript
guard `data?.lat && data?.lon` is truthy iff both fields are present and
nonzero (`ℚ` has no NaN); a falsy guard falls through to the
`data?.error` check.  The first passing sample records the drone origin,
the path, and the planned distance; later samples update the position
and recompute progress as
`clamp(distanceFromStart / max(totalDistance, 1) · 100, 0, 100)`. -/
noncomputable def processTelemetry (user : Coord) (st : TelemetryState) :
    Frame → TelemetryState
  | .malformed _ => st
  | .json d =>
    match d.lat, d.lon with
    | some la, some lo =>
      if la = 0 ∨ lo = 0 then errorFallthrough st d
      else
        let pos : Coord := ⟨la, lo⟩
        if st.initialPositionSet = false ∧ st.droneInitialLocation = none then
          { st with
            droneInitialLocation := some pos
            dronePosition := some pos
            pathLine := some [pos, user]
            totalDistance := distanceMeters pos user
            initialPositionSet := true
            statusText := .droneLocated }
        else
          let st1 := { st with dronePosition := some pos }
          match st.droneInitialLocation with
          | some origin =>
            let distanceFromStart := distanceMeters origin pos
            let p := max 0 (min 100 (distanceFromStart / max st.totalDistance 1 * 100))
            { st1 with
              progress := p
              statusText := if 95 ≤ p then .arriving else .inTransit p }
          | none => st1
    | _, _ => errorFallthrough st d

theorem errorFallthrough_fields (st : TelemetryState) (d : Telemetry) :
    (errorFallthrough st d).droneInitialLocation = st.droneInitialLocation ∧
    (errorFallthrough st d).dronePosition = st.dronePosition ∧
    (errorFallthrough st d).progress = st.progress ∧
    (errorFallthrough st d).initialPositionSet = st.initialPositionSet := by
  unfold errorFallthrough
  split <;> simp

/-- C10: a telemetry sample whose `lat` or `lon` field is absent or
exactly 0 fails the truthiness guard `data?.lat && data?.lon` and is
treated like a malformed sample: no origin capture, no position update,
no progress update — even though 0 is a valid coordinate. -/
theorem C10_zero_coordinate_dropped (user : Coord) (st : TelemetryState)
    (d : Telemetry)
    (h : d.lat = none ∨ d.lat = some 0 ∨ d.lon = none ∨ d.lon = some 0) :
    (processTelemetry user st (.json d)).droneInitialLocation
        = st.droneInitialLocation ∧
    (processTelemetry user st (.json d)).dronePosition = st.dronePosition ∧
    (processTelemetry user st (.json d)).progress = st.progress ∧
    (processTelemetry user st (.json d)).initialPositionSet
        = st.initialPositionSet := by
  have heq : processTelemetry user st (.json d) = errorFallthrough st d := by
    obtain ⟨dlat, dlon, derr, drtl⟩ := d
    cases dlat with
    | none => rfl
    | some la =>
      cases dlon with
      | none => rfl
      | some lo =>
        have hz : la = 0 ∨ lo = 0 := by
          rcases h with h | h | h | h <;> simp_all
        show (if la = 0 ∨ lo = 0 then
          errorFallthrough st ⟨some la, some lo, derr, drtl⟩ else _) =
          errorFallthrough st ⟨some la, some lo, derr, drtl⟩
        rw [if_pos hz]
  rw [heq]
  exact errorFallthrough_fields st d

/-- C10 witness: the theorem at a concrete state and a sample reporting
`lat = 0`. -/
theorem C10_zero_coordinate_dropped_witness :
    ((⟨some 0, some 5, none, none⟩ : Telemetry).lat = none ∨
      (⟨some 0, some 5, none, none⟩ : Telemetry).lat = some 0 ∨
      (⟨some 0, some 5, none, none⟩ : Telemetry).lon = none ∨
      (⟨some 0, some 5, none, none⟩ : Telemetry).lon = some 0) ∧
    ((processTelemetry ⟨1, 1⟩ initTelemetryState
        (.json ⟨some 0, some 5, none, none⟩)).droneInitialLocation
        = initTelemetryState.droneInitialLocation ∧
    (processTelemetry ⟨1, 1⟩ initTelemetryState
        (.json ⟨some 0, some 5, none, none⟩)).dronePosition
        = initTelemetryState.dronePosition ∧
    (processTelemetry ⟨1, 1⟩ initTelemetryState
        (.json ⟨some 0, some 5, none, none⟩)).progress
        = initTelemetryState.progress ∧
    (processTelemetry ⟨1, 1⟩ initTelemetryState
        (.json ⟨some 0, some 5, none, none⟩)).initialPositionSet
        = initTelemetryState.initialPositionSet) :=
  ⟨Or.inr (Or.inl rfl),
    C10_zero_coordinate_dropped ⟨1, 1⟩ initTelemetryState
      ⟨some 0, some 5, none, none⟩ (Or.inr (Or.inl rfl))⟩

/-- The state the claim hypothesises: Origin (0,0) and Destination
(0, 0.01) established (fields set directly — the handler itself could
never record origin (0,0), its truthiness guard dropping
zero-coordinate samples). -/
noncomputable def c4ClaimState : TelemetryState :=
  { statusText := .droneLocated
    droneInitialLocation := some ⟨0, 0⟩
    dronePosition := some ⟨0, 0⟩
    progress := 0
    pathLine := some [⟨0, 0⟩, ⟨0, 1/100⟩]
    totalDistance := distanceMeters ⟨0, 0⟩ ⟨0, 1/100⟩
    initialPositionSet := true }

/-- C4 counterexample: with Origin (0,0) and Destination (0, 0.01)
established, the sample reporting (0, 0.005) has `lat = 0`, fails the
truthiness guard, and changes nothing: CurrentPosition is not set to
(0, 0.005) and Progress stays 0 instead of ≈ 50%. -/
theorem C4_counterexample :
    processTelemetry ⟨0, 1/100⟩ c4ClaimState
        (.json ⟨some 0, some (1/200), none, none⟩) = c4ClaimState ∧
    c4ClaimState.dronePosition ≠ some ⟨0, 1/200⟩ ∧
    c4ClaimState.progress = 0 := by
  refine ⟨?_, ?_, rfl⟩
  · rfl
  · intro hcontra
    rw [show c4ClaimState.dronePosition = some ⟨0, 0⟩ from rfl] at hcontra
    have : (⟨0, 0⟩ : Coord) = ⟨0, 1/200⟩ := Option.some.inj hcontra
    have hlng : (0 : ℚ) = 1/200 := congrArg Coord.lng this
    norm_num at hlng

/-- The destination (customer location) of the amended C4 scenario. -/
def c4User : Coord := ⟨10, 3⟩

/-- The state after the first telemetry sample (10, 1) establishes the
drone origin: PlannedDistance = distanceMeters((10,1),(10,3)) = 200000 m. -/
noncomputable def c4State0 : TelemetryState :=
  processTelemetry c4User initTelemetryState (.json ⟨some 10, some 1, none, none⟩)

/-- C4 amended: the zero-coordinate truthiness guard forces nonzero
coordinates; with Origin (10,1) established from the first sample and
Destination (10,3), a sample at the midpoint (10,2) sets CurrentPosition
to (10,2) and yields Progress exactly 50, via
`Progress = clamp(traveled / max(PlannedDistance, 1 m) · 100, 0, 100)`. -/
theorem C4_midpoint_progress_amended :
    (processTelemetry c4User c4State0
        (.json ⟨some 10, some 2, none, none⟩)).dronePosition = some ⟨10, 2⟩ ∧
    (processTelemetry c4User c4State0
        (.json ⟨some 10, some 2, none, none⟩)).progress = 50 := by
  constructor
  · rfl
  · have hdp : (processTelemetry c4User c4State0
        (.json ⟨some 10, some 2, none, none⟩)).progress
        = max 0 (min 100 (distanceMeters ⟨10, 1⟩ ⟨10, 2⟩
            / max (distanceMeters ⟨10, 1⟩ c4User) 1 * 100)) := rfl
    have h1 : distanceMeters ⟨10, 1⟩ ⟨10, 2⟩ = ((100000 : ℚ) : ℝ) :=
      distanceMeters_eval _ _ 100000 (by norm_num [distSqMeters]) (by norm_num)
    have h2 : distanceMeters ⟨10, 1⟩ c4User = ((200000 : ℚ) : ℝ) :=
      distanceMeters_eval _ _ 200000 (by norm_num [distSqMeters, c4User]) (by norm_num)
    rw [hdp, h1, h2]
    norm_num [min_def, max_def]

-- ## ShoppingCart component (src/components/shopping-cart.tsx)

/-- The checkout step of ShoppingCart: cart, delivery, or completed. -/
inductive CheckoutStep where
  | cart
  | delivery
  | completed
deriving DecidableEq, Repr

/-- The `ShoppingCart` state touched by its telemetry listener and by
`handleCheckout`: the checkout step, the checkout error banner, and the
delivery status line. -/
structure CartState where
  checkoutStep : CheckoutStep
  orderError : Option String
  deliveryStatus : String
deriving DecidableEq, Repr

/-- The RTL-monitoring `ws.onmessage` handler of `ShoppingCart`
(lines 86–104).  `data.rtl_status` truthy (an object is always truthy)
with `is_rtl_active` true sets the status text (finally
`✅ Delivery completed!`) and moves the checkout step to `completed`;
`rtl_status` present but inactive changes nothing; a frame without
`rtl_status` resets the status line to `Mission in progress...`;
unparseable frames are swallowed by the `catch`. -/
def processCartMsg (st : CartState) : Frame → CartState
  | .malformed _ => st
  | .json d =>
    match d.rtl with
    | some active =>
      if active then
        { st with
          deliveryStatus := "✅ Delivery completed!"
          checkoutStep := .completed }
      else st
    | none => { st with deliveryStatus := "Mission in progress..." }

/-- C5: any telemetry message whose payload carries
`rtl_status.is_rtl_active = true` moves the session to the completed
status (and sets the completion status text), from any state — in
particular regardless of any Progress value a distance computation would
yield, since the handler never consults progress at all. -/
theorem C5_rtl_forces_completed (st : CartState) (d : Telemetry)
    (h : d.rtl = some true) :
    (processCartMsg st (.json d)).checkoutStep = .completed ∧
    (processCartMsg st (.json d)).deliveryStatus = "✅ Delivery completed!" := by
  obtain ⟨dlat, dlon, derr, drtl⟩ := d
  simp only [Telemetry.rtl] at h
  subst h
  exact ⟨rfl, rfl⟩

/-- C5 witness: an RTL-active frame arriving in the delivery view with a
low-progress status line still completes the session. -/
theorem C5_rtl_forces_completed_witness :
    (⟨none, none, none, some true⟩ : Telemetry).rtl = some true ∧
    ((processCartMsg ⟨.delivery, none, "In transit (10%)"⟩
        (.json ⟨none, none, none, some true⟩)).checkoutStep = .completed ∧
    (processCartMsg ⟨.delivery, none, "In transit (10%)"⟩
        (.json ⟨none, none, none, some true⟩)).deliveryStatus
        = "✅ Delivery completed!") :=
  ⟨rfl, C5_rtl_forces_completed ⟨.delivery, none, "In transit (10%)"⟩
    ⟨none, none, none, some true⟩ rfl⟩

/-- A ShoppingCart state just after the telemetry socket connected. -/
def c6CartState : CartState :=
  { checkoutStep := .delivery
    orderError := none
    deliveryStatus := "Connected to drone telemetry..." }

/-- C6 counterexample: the claim's own example frame `{"noise": true}` —
valid JSON with no coordinate fields — does change the ShoppingCart
state: its handler overwrites the delivery status line with
`Mission in progress...`. -/
theorem C6_counterexample :
    processCartMsg c6CartState (.json ⟨none, none, none, none⟩)
      ≠ c6CartState := by
  decide

/-- C6 amended: frames that are not valid JSON leave both handlers'
state entirely unchanged; a JSON frame without coordinate fields and
without a truthy `error` field leaves the telemetry handler's state
entirely unchanged (so Progress, CurrentPosition and status are
untouched); in the ShoppingCart handler a frame without `rtl_status`
leaves the checkout step unchanged, though it may overwrite the status
line.  Both handlers are total functions — the `catch` swallows parse
failures, so no frame throws or terminates the subscription. -/
theorem C6_malformed_frames_amended :
    (∀ (user : Coord) (st : TelemetryState) (raw : String),
      processTelemetry user st (.malformed raw) = st) ∧
    (∀ (st : CartState) (raw : String),
      processCartMsg st (.malformed raw) = st) ∧
    (∀ (user : Coord) (st : TelemetryState) (d : Telemetry),
      d.lat = none → d.lon = none → truthyStr d.error = false →
      processTelemetry user st (.json d) = st) ∧
    (∀ (st : CartState) (d : Telemetry), d.rtl = none →
      (processCartMsg st (.json d)).checkoutStep = st.checkoutStep) := by
  refine ⟨fun _ _ _ => rfl, fun _ _ => rfl, ?_, ?_⟩
  · intro user st d hlat hlon herr
    obtain ⟨dlat, dlon, derr, drtl⟩ := d
    simp only [Telemetry.lat] at hlat
    simp only [Telemetry.lon] at hlon
    subst hlat
    subst hlon
    show errorFallthrough st _ = st
    unfold errorFallthrough
    rw [if_neg]
    simp only [truthyStr] at herr ⊢
    simp [herr]
  · intro st d hrtl
    obtain ⟨dlat, dlon, derr, drtl⟩ := d
    simp only [Telemetry.rtl] at hrtl
    subst hrtl
    rfl

/-- C6 amended witness: the conjuncts applied at concrete frames —
a non-JSON frame and a coordinate-free JSON frame against a concrete
telemetry state, and a `rtl_status`-free frame against a concrete cart
state. -/
theorem C6_malformed_frames_amended_witness :
    processTelemetry ⟨1, 1⟩ initTelemetryState (.malformed "not json")
      = initTelemetryState ∧
    processCartMsg c6CartState (.malformed "not json") = c6CartState ∧
    ((⟨none, none, none, none⟩ : Telemetry).lat = none ∧
      (⟨none, none, none, none⟩ : Telemetry).lon = none ∧
      truthyStr (⟨none, none, none, none⟩ : Telemetry).error = false) ∧
    processTelemetry ⟨1, 1⟩ initTelemetryState
      (.json ⟨none, none, none, none⟩) = initTelemetryState ∧
    ((⟨none, none, none, none⟩ : Telemetry).rtl = none ∧
      (processCartMsg c6CartState (.json ⟨none, none, none, none⟩)).checkoutStep
        = c6CartState.checkoutStep) :=
  ⟨C6_malformed_frames_amended.1 ⟨1, 1⟩ initTelemetryState "not json",
    C6_malformed_frames_amended.2.1 c6CartState "not json",
    ⟨rfl, rfl, rfl⟩,
    C6_malformed_frames_amended.2.2.1 ⟨1, 1⟩ initTelemetryState
      ⟨none, none, none, none⟩ rfl rfl rfl,
    rfl,
    C6_malformed_frames_amended.2.2.2 c6CartState
      ⟨none, none, none, none⟩ rfl⟩

-- ## Checkout flow (`shopping-cart.tsx` `handleCheckout`, lines 124–174;
-- the `src/unnamed/part_001` variant lines 48–93 is logically identical)

/-- Outcome of the geolocation promise: platform unsupported, rejection
with an error message (empty string models a missing message, for the
`err?.message || …` fallback), or a position. -/
inductive GeoOutcome where
  | unsupported
  | geoError (msg : String)
  | position (lat lon : ℚ)
deriving DecidableEq, Repr

/-- Outcome of the `fetch` of `POST /trigger`: rejection with an error
message (empty models a missing message), or an HTTP response with
status and body text.  `res.ok` is `200 ≤ status ≤ 299`. -/
inductive TriggerOutcome where
  | networkError (msg : String)
  | response (status : ℕ) (body : String)
deriving DecidableEq, Repr

/-- `handleCheckout` as a function of the two external outcomes.  It
first clears `orderError`; a geolocation failure or unsupported platform
sets an error and returns; a non-2xx response throws
`Trigger failed: <status> <body>`, caught and surfaced (the message
being nonempty, the `|| "Failed to trigger mission."` fallback fires only
for an empty message); a network failure surfaces `err.message` when
nonempty, else the generic text; only after a 2xx response does the
checkout step move to `delivery`. -/
def handleCheckout (st : CartState) (geo : GeoOutcome)
    (trig : TriggerOutcome) : CartState :=
  let st0 := { st with orderError := none }
  match geo with
  | .unsupported =>
    { st0 with orderError := some "Geolocation is not supported by your browser." }
  | .geoError msg =>
    let m := if msg == "" then "Could not fetch your location." else msg
    { st0 with orderError := some m }
  | .position _ _ =>
    match trig with
    | .networkError msg =>
      let m := if msg == "" then "Failed to trigger mission." else msg
      { st0 with orderError := some m }
    | .response status body =>
      if 200 ≤ status ∧ status ≤ 299 then
        { st0 with checkoutStep := .delivery }
      else
        let m := "Trigger failed: " ++ toString status ++ " " ++ body
        { st0 with orderError := some m }

/-- C7 counterexample: a network failure whose error object carries the
browser's usual nonempty message (`Failed to fetch`) is surfaced
verbatim — not as the generic trigger-failure message the claim
requires. -/
theorem C7_counterexample :
    (handleCheckout ⟨.cart, none, "Preparing..."⟩ (.position 1 2)
        (.networkError "Failed to fetch")).orderError
      = some "Failed to fetch" ∧
    (handleCheckout ⟨.cart, none, "Preparing..."⟩ (.position 1 2)
        (.networkError "Failed to fetch")).orderError
      ≠ some "Failed to trigger mission." := by
  constructor
  · rfl
  · decide

/-- C7 amended: from the cart view, the checkout step moves to
`delivery` exactly when geolocation succeeded and the trigger response
was 2xx; a non-2xx response surfaces an error containing the status and
body; a network failure surfaces the error's own message when nonempty
and the generic trigger-failure message otherwise; in every failure case
the checkout step stays `cart`. -/
theorem C7_checkout_amended (st : CartState) (geo : GeoOutcome)
    (trig : TriggerOutcome) (hcart : st.checkoutStep = .cart) :
    ((handleCheckout st geo trig).checkoutStep = .delivery ↔
      (∃ la lo status body, geo = .position la lo ∧
        trig = .response status body ∧ 200 ≤ status ∧ status ≤ 299)) ∧
    (∀ la lo status body, geo = .position la lo →
      trig = .response status body → ¬(200 ≤ status ∧ status ≤ 299) →
      (handleCheckout st geo trig).orderError =
        some ("Trigger failed: " ++ toString status ++ " " ++ body)) ∧
    (∀ la lo msg, geo = .position la lo → trig = .networkError msg →
      (handleCheckout st geo trig).orderError =
        some (if msg == "" then "Failed to trigger mission." else msg)) ∧
    (¬(∃ la lo status body, geo = .position la lo ∧
        trig = .response status body ∧ 200 ≤ status ∧ status ≤ 299) →
      (handleCheckout st geo trig).checkoutStep = .cart) := by
  cases geo with
  | unsupported =>
    refine ⟨?_, ?_, ?_, ?_⟩
    · constructor
      · intro h
        rw [show (handleCheckout st .unsupported trig).checkoutStep
          = st.checkoutStep from rfl, hcart] at h
        cases h
      · rintro ⟨la, lo, status, body, h, -⟩; cases h
    · rintro la lo status body h; cases h
    · rintro la lo msg h; cases h
    · intro _
      rw [show (handleCheckout st .unsupported trig).checkoutStep
        = st.checkoutStep from rfl, hcart]
  | geoError msg0 =>
    refine ⟨?_, ?_, ?_, ?_⟩
    · constructor
      · intro h
        rw [show (handleCheckout st (.geoError msg0) trig).checkoutStep
          = st.checkoutStep from rfl, hcart] at h
        cases h
      · rintro ⟨la, lo, status, body, h, -⟩; cases h
    · rintro la lo status body h; cases h
    · rintro la lo msg h; cases h
    · intro _
      rw [show (handleCheckout st (.geoError msg0) trig).checkoutStep
        = st.checkoutStep from rfl, hcart]
  | position la0 lo0 =>
    cases trig with
    | networkError msg0 =>
      refine ⟨?_, ?_, ?_, ?_⟩
      · constructor
        · intro h
          rw [show (handleCheckout st (.position la0 lo0)
            (.networkError msg0)).checkoutStep = st.checkoutStep from rfl,
            hcart] at h
          cases h
        · rintro ⟨la, lo, status, body, -, h, -⟩; cases h
      · rintro la lo status body - h; cases h
      · rintro la lo msg - h
        cases h
        rfl
      · intro _
        rw [show (handleCheckout st (.position la0 lo0)
          (.networkError msg0)).checkoutStep = st.checkoutStep from rfl, hcart]
    | response status0 body0 =>
      by_cases hok : 200 ≤ status0 ∧ status0 ≤ 299
      · have hstep : (handleCheckout st (.position la0 lo0)
            (.response status0 body0)).checkoutStep = .delivery := by
          show (if 200 ≤ status0 ∧ status0 ≤ 299 then _ else _ :
            CartState).checkoutStep = _
          rw [if_pos hok]
        refine ⟨?_, ?_, ?_, ?_⟩
        · constructor
          · intro _; exact ⟨la0, lo0, status0, body0, rfl, rfl, hok.1, hok.2⟩
          · intro _; exact hstep
        · rintro la lo status body - h hbad
          cases h
          exact absurd hok hbad
        · rintro la lo msg - h; cases h
        · intro hbad
          exact absurd ⟨la0, lo0, status0, body0, rfl, rfl, hok.1, hok.2⟩ hbad
      · have hstep : (handleCheckout st (.position la0 lo0)
            (.response status0 body0)).checkoutStep = st.checkoutStep := by
          show (if 200 ≤ status0 ∧ status0 ≤ 299 then _ else _ :
            CartState).checkoutStep = _
          rw [if_neg hok]
        refine ⟨?_, ?_, ?_, ?_⟩
        · constructor
          · intro h; rw [hstep, hcart] at h; cases h
          · rintro ⟨la, lo, status, body, -, h, h1, h2⟩
            cases h
            exact absurd ⟨h1, h2⟩ hok
        · rintro la lo status body - h -
          cases h
          show (if 200 ≤ status0 ∧ status0 ≤ 299 then _ else _ :
            CartState).orderError = _
          rw [if_neg hok]
        · rintro la lo msg - h; cases h
        · intro _; rw [hstep, hcart]

/-- C7 amended witness: a 2xx response after a successful geolocation
moves the checkout step to `delivery`. -/
theorem C7_checkout_amended_witness :
    (⟨.cart, none, "Preparing..."⟩ : CartState).checkoutStep = .cart ∧
    (handleCheckout ⟨.cart, none, "Preparing..."⟩ (.position 1 2)
        (.response 204 "ok")).checkoutStep = .delivery :=
  ⟨rfl,
    (C7_checkout_amended ⟨.cart, none, "Preparing..."⟩ (.position 1 2)
        (.response 204 "ok") rfl).1.mpr
      ⟨1, 2, 204, "ok", rfl, rfl, by decide, by decide⟩⟩

end Vayu
